import Mathlib

/-!
Shallow embedding of the spade-risk-agent core pipeline: the crime-data
and geolocation resolvers (tools/crime_data_tool.py, tools/geolocation_tool.py
and their simulated fallbacks), the dimension scorer (core/scoring_engine.py),
the aggregator (core/aggregation.py), the recommendation generator
(core/recommendations.py) and the property profile lookup
(tools/property_info_tool.py).

Numbers are embedded as exact rationals (Python float literals such as 0.35
are read as their decimal values).  Python `round` (banker's rounding,
half-to-even) is `pyRound`; `int(...)` on non-negative values is `Int.floor`.
Network calls and random draws are oracles supplied through environment
records; an oracle returning `none` models every locally-absorbed provider
failure (timeout, non-2xx status, malformed payload, empty result set).
-/

/-- Python `pat in s` substring test: does `pat` occur at the head of `s`? -/
def listStartsWith : List Char → List Char → Bool
  | _, [] => true
  | [], _ :: _ => false
  | a :: as, b :: bs => a = b && listStartsWith as bs

/-- Python `pat in s` substring test over the whole of `s`. -/
def listHasInfix : List Char → List Char → Bool
  | [], pat => pat.isEmpty
  | a :: rest, pat => listStartsWith (a :: rest) pat || listHasInfix rest pat

/-- Python `pat in s` for strings. -/
def strContains (s pat : String) : Bool :=
  listHasInfix s.toList pat.toList

/-- Python `s.startswith(pat)` for strings. -/
def strStartsWith (s pat : String) : Bool :=
  listStartsWith s.toList pat.toList

/-- Python `round(x)`: round half to even (banker's rounding). -/
def pyRound (q : ℚ) : ℤ :=
  if Int.fract q = 1 / 2 then (if Even ⌊q⌋ then ⌊q⌋ else ⌊q⌋ + 1) else round q

/-- Python `round(x, 2)`: round to two decimal places, half to even. -/
def pyRound2 (q : ℚ) : ℚ :=
  (pyRound (q * 100) : ℚ) / 100

/-- Python truthiness of an optional float (`None` and `0.0` are falsy). -/
def pyTruthyCoord (x : Option ℚ) : Bool :=
  match x with
  | none => false
  | some v => decide (v ≠ 0)

/-- Python truthiness of an optional string (`None` and `""` are falsy). -/
def pyTruthyStr (x : Option String) : Bool :=
  match x with
  | none => false
  | some s => decide (s ≠ "")

/-- Python `if o and pat in str(o)` on an optional string. -/
def optContains (o : Option String) (pat : String) : Bool :=
  match o with
  | none => false
  | some s => if s = "" then false else strContains s pat

/-- Python `if o and pat in str(o).lower()` on an optional string. -/
def optContainsLower (o : Option String) (pat : String) : Bool :=
  match o with
  | none => false
  | some s => if s = "" then false else strContains s.toLower pat

/-- The crime-data dict produced by the Crime Data Resolver
(`violent_crime_index`, `property_crime_index`, `recent_incidents`, `source`). -/
structure CrimeData where
  violent_crime_index : ℚ
  property_crime_index : ℚ
  recent_incidents : ℚ
  source : String
deriving DecidableEq, Repr

/-- The geolocation dict produced by the Geolocation Resolver. -/
structure GeoData where
  latitude : ℚ
  longitude : ℚ
  neighborhood_type : String
  population_density : ℚ
  nearby_risks : List String
  source : String
  formatted_address : String
deriving DecidableEq, Repr

/-- The property profile dict returned by `get_property_info`. -/
structure PropData where
  base_exposure : ℚ
deriving DecidableEq, Repr

/-- The five integer risk dimensions returned by `compute_risk_dimensions`
(the textual summaries are presentation-only and not embedded). -/
structure RiskDims where
  crime_risk : ℤ
  property_exposure_risk : ℤ
  accessibility_risk : ℤ
  neighborhood_risk : ℤ
  operational_risk : ℤ
deriving DecidableEq, Repr

/-- tools/property_info_tool.py `get_property_info`: base exposure per
property-type category, defaulting to 30 for unknown categories. -/
def get_property_info (property_type : String) : PropData :=
  let t := property_type.toLower
  if t = "home" then ⟨25⟩
  else if t = "rental" then ⟨35⟩
  else if t = "vacation home" then ⟨45⟩
  else if t = "business" then ⟨50⟩
  else ⟨30⟩

/-- core/aggregation.py `compute_overall_score`.  Of the two data dicts only
the `"source"` key is read (`.get("source", "simulated")`), so each dict is
embedded as the optional value of that key. -/
def compute_overall_score (dim : RiskDims)
    (crime_data_source geo_data_source : Option String) : ℚ × ℚ :=
  let score : ℚ :=
    (dim.crime_risk : ℚ) * 0.35 +
    (dim.property_exposure_risk : ℚ) * 0.25 +
    (dim.accessibility_risk : ℚ) * 0.15 +
    (dim.neighborhood_risk : ℚ) * 0.15 +
    (dim.operational_risk : ℚ) * 0.10
  let score := pyRound2 score
  let score := max 0 (min 100 score)
  let crime_source := crime_data_source.getD "simulated"
  let geo_source := geo_data_source.getD "simulated"
  let confidence : ℚ :=
    if crime_source ≠ "simulated" ∧ geo_source ≠ "simulated" then 1.0
    else if crime_source = "simulated" ∧ geo_source ≠ "simulated" then 0.7
    else 0.5
  (score, confidence)

/-- core/recommendations.py `generate_recommendations`. -/
def generate_recommendations (score : ℚ) : List String :=
  if score > 75 then
    ["Install advanced CCTV with remote monitoring",
     "Deploy regular security patrols",
     "Add smart perimeter lighting",
     "Upgrade fences and gates",
     "Enable controlled access systems"]
  else if score > 60 then
    ["Install 1080p CCTV cameras",
     "Enable motion-activated lighting",
     "Improve fencing and gate systems"]
  else if score > 40 then
    ["Install basic CCTV",
     "Improve door/window locks",
     "Trim shrubs to increase visibility"]
  else
    ["Basic home security recommended"]

/-- Environment of the Crime Data Resolver (tools/crime_data_tool.py).
The four per-city query oracles stand for the HTTP fetch, JSON parsing,
keyword classification and index scaling of `_query_chicago_crime_api`,
`_query_nyc_crime_api`, `_query_la_crime_api` and `_query_sf_crime_api`:
a `some (v, p, r)` is the triple of computed indices, a `none` is any
locally-absorbed failure (timeout, non-2xx, malformed payload, empty data).
`geopy` stands for the Nominatim geocoding call inside `get_crime_data`
(its exceptions are caught locally, so `none` covers both failure and a
falsy location).  `simViolent`/`simProperty`/`simRecent` are the random
draws of `simulate_crime`.  `unexpected = true` injects an unexpected
internal error into the body of `get_crime_data`, exercising its outermost
`except` handler. -/
structure CrimeEnv where
  chicago : ℚ → ℚ → Option (ℚ × ℚ × ℚ)
  nyc : ℚ → ℚ → Option (ℚ × ℚ × ℚ)
  la : ℚ → ℚ → Option (ℚ × ℚ × ℚ)
  sf : ℚ → ℚ → Option (ℚ × ℚ × ℚ)
  geopy : String → Option (ℚ × ℚ)
  simViolent : ℚ
  simProperty : ℚ
  simRecent : ℚ
  unexpected : Bool

/-- tools/fallback/simulated_crime.py `simulate_crime`: random indices with
the literal provenance `"simulated"`. -/
def simulate_crime (env : CrimeEnv) : CrimeData :=
  { violent_crime_index := env.simViolent
    property_crime_index := env.simProperty
    recent_incidents := env.simRecent
    source := "simulated" }

/-- Shared record builder of the four city query functions. -/
def mkCityCrime (s : String) (t : ℚ × ℚ × ℚ) : CrimeData :=
  { violent_crime_index := t.1
    property_crime_index := t.2.1
    recent_incidents := t.2.2
    source := s }

/-- Embeds `_query_chicago_crime_api`: oracle indices with the literal provenance
of the source (line 116). -/
def query_chicago_crime_api (env : CrimeEnv) (latitude longitude : ℚ) :
    Option CrimeData :=
  (env.chicago latitude longitude).map (mkCityCrime "chicago_api_realtime")

/-- Embeds `_query_nyc_crime_api` (provenance literal at line 181). -/
def query_nyc_crime_api (env : CrimeEnv) (latitude longitude : ℚ) :
    Option CrimeData :=
  (env.nyc latitude longitude).map (mkCityCrime "nypd_api")

/-- Embeds `_query_la_crime_api` (provenance literal at line 235). -/
def query_la_crime_api (env : CrimeEnv) (latitude longitude : ℚ) :
    Option CrimeData :=
  (env.la latitude longitude).map (mkCityCrime "la_api")

/-- Embeds `_query_sf_crime_api` (provenance literal at line 289). -/
def query_sf_crime_api (env : CrimeEnv) (latitude longitude : ℚ) :
    Option CrimeData :=
  (env.sf latitude longitude).map (mkCityCrime "sf_api")

/-- Embeds `_query_city_crime_api`: substring dispatch on the lowercased city name. -/
def query_city_crime_api (env : CrimeEnv) (city : String)
    (latitude longitude : ℚ) : Option CrimeData :=
  let city_lower := city.toLower
  if strContains city_lower "chicago" then query_chicago_crime_api env latitude longitude
  else if strContains city_lower "new york" || strContains city_lower "nyc" then
    query_nyc_crime_api env latitude longitude
  else if strContains city_lower "los angeles" || strContains city_lower "la" then
    query_la_crime_api env latitude longitude
  else if strContains city_lower "san francisco" || strContains city_lower "sf" then
    query_sf_crime_api env latitude longitude
  else none

/-- Embeds `_detect_city_from_address`: first supported city name occurring in the
lowercased address, longer names checked first. -/
def detect_city_from_address (address : String) : Option String :=
  if address = "" then none
  else
    let address_lower := address.toLower
    ["san francisco", "los angeles", "new york", "philadelphia", "chicago"].find?
      fun city => strContains address_lower city

/-- Embeds `_get_crime_from_coordinates`: nested bounding-box heuristics.  Python
`int(x)` on the non-negative quantities involved is `Int.floor`; `x % 1` is
`Int.fract`.  The trailing `simulate_crime()` fallback of the source sits
behind `is_urban = True` and is kept, dead, as in the source. -/
def get_crime_from_coordinates (sim : CrimeData) (latitude longitude : ℚ) :
    CrimeData :=
  let is_brooklyn_11212 :=
    40.65 ≤ latitude ∧ latitude ≤ 40.70 ∧ -73.95 ≤ longitude ∧ longitude ≤ -73.90
  if is_brooklyn_11212 then
    { violent_crime_index := 85, property_crime_index := 75,
      recent_incidents := 18, source := "coordinate_estimation_brooklyn_high_crime" }
  else
    let is_brooklyn :=
      40.60 ≤ latitude ∧ latitude ≤ 40.75 ∧ -74.05 ≤ longitude ∧ longitude ≤ -73.85
    if is_brooklyn then
      let lat_variation := |latitude - 40.6782| * 15
      { violent_crime_index := ((min 100 ⌊(65 : ℚ) + lat_variation⌋ : ℤ) : ℚ)
        property_crime_index := ((min 100 ⌊(55 : ℚ) + lat_variation * 0.8⌋ : ℤ) : ℚ)
        recent_incidents := ((min 25 ⌊(12 : ℚ) + lat_variation / 3⌋ : ℤ) : ℚ)
        source := "coordinate_estimation_brooklyn" }
    else
      let is_manhattan :=
        40.70 ≤ latitude ∧ latitude ≤ 40.80 ∧ -74.05 ≤ longitude ∧ longitude ≤ -73.90
      if is_manhattan then
        { violent_crime_index := ((min 100 (50 + ⌊Int.fract latitude * 15⌋) : ℤ) : ℚ)
          property_crime_index := ((min 100 (60 + ⌊Int.fract longitude * 10⌋) : ℤ) : ℚ)
          recent_incidents := ((min 20 (10 + ⌊Int.fract latitude * 3⌋) : ℤ) : ℚ)
          source := "coordinate_estimation_manhattan" }
      else
        let is_nyc :=
          40.50 ≤ latitude ∧ latitude ≤ 40.90 ∧ -74.30 ≤ longitude ∧ longitude ≤ -73.70
        if is_nyc then
          { violent_crime_index := ((min 100 (55 + ⌊Int.fract latitude * 20⌋) : ℤ) : ℚ)
            property_crime_index := ((min 100 (50 + ⌊Int.fract longitude * 15⌋) : ℤ) : ℚ)
            recent_incidents := ((min 20 (10 + ⌊Int.fract latitude * 4⌋) : ℤ) : ℚ)
            source := "coordinate_estimation_nyc" }
        else
          let is_urban := true
          if is_urban then
            { violent_crime_index := ((min 100 (45 + ⌊Int.fract latitude * 20⌋) : ℤ) : ℚ)
              property_crime_index := ((min 100 (40 + ⌊Int.fract longitude * 15⌋) : ℤ) : ℚ)
              recent_incidents := ((min 20 (8 + ⌊Int.fract latitude * 5⌋) : ℤ) : ℚ)
              source := "coordinate_estimation_urban" }
          else sim

/-- The `try` body of `get_crime_data` (lines 438-492): city API when the
hint and both coordinates are truthy, else detected-city API under the same
coordinate truthiness, else coordinate estimation when both coordinates are
non-None, else one best-effort geocode followed by city retry / coordinate
estimation, else simulation tagged `"simulated"`.  In branch three the
result of `_get_crime_from_coordinates` always carries a `"source"` key, so
the `if "source" not in result` guard of the source never fires. -/
def get_crime_data_body (env : CrimeEnv) (address : String)
    (latitude longitude : Option ℚ) (city : Option String) : CrimeData :=
  let step1 : Option CrimeData :=
    if pyTruthyStr city = true ∧ pyTruthyCoord latitude = true ∧
        pyTruthyCoord longitude = true then
      query_city_crime_api env (city.getD "") (latitude.getD 0) (longitude.getD 0)
    else none
  match step1 with
  | some r => r
  | none =>
  let step2 : Option CrimeData :=
    if pyTruthyStr city = false ∧ address ≠ "" then
      match detect_city_from_address address with
      | some detected =>
        if pyTruthyCoord latitude = true ∧ pyTruthyCoord longitude = true then
          query_city_crime_api env detected (latitude.getD 0) (longitude.getD 0)
        else none
      | none => none
    else none
  match step2 with
  | some r => r
  | none =>
  match latitude, longitude with
  | some la, some lo => get_crime_from_coordinates (simulate_crime env) la lo
  | _, _ =>
  match env.geopy address with
  | some loc =>
    let retry : Option CrimeData :=
      if pyTruthyStr city = false then
        match detect_city_from_address address with
        | some detected => query_city_crime_api env detected loc.1 loc.2
        | none => none
      else none
    match retry with
    | some r => r
    | none =>
      { get_crime_from_coordinates (simulate_crime env) loc.1 loc.2 with
          source := "coordinate_based" }
  | none => { simulate_crime env with source := "simulated" }

/-- Embeds `get_crime_data` (lines 430-499): the whole body runs under a blanket
`try`; any exception is absorbed and yields simulated data tagged
`"simulated_error"`. -/
def get_crime_data (env : CrimeEnv) (address : String)
    (latitude longitude : Option ℚ) (city : Option String) : CrimeData :=
  if env.unexpected = true then { simulate_crime env with source := "simulated_error" }
  else get_crime_data_body env address latitude longitude city

/-- The three neighborhood kinds drawn by `random.choice` in
tools/fallback/simulated_geo.py. -/
inductive NType where
  | urban
  | suburban
  | rural
deriving DecidableEq, Repr

/-- The string form of a neighborhood kind. -/
def ntypeStr : NType → String
  | NType.urban => "urban"
  | NType.suburban => "suburban"
  | NType.rural => "rural"

/-- Environment of the Geolocation Resolver (tools/geolocation_tool.py).
Each provider oracle stands for the full HTTP interaction of
`_geocode_with_google` (including the silently-skipped missing credential),
`_geocode_with_nominatim` (including its three address-variant retries and
coordinate validation) and `_geocode_with_photon`: a `some (lat, lon, addr)`
is a validated successful geocode, `none` any absorbed failure.  The `sim*`
fields are the random draws of `simulate_geo`. -/
structure GeoEnv where
  google : String → Option (ℚ × ℚ × String)
  nominatim : String → Option (ℚ × ℚ × String)
  photon : String → Option (ℚ × ℚ × String)
  simNeighborhood : NType
  simLat : ℚ
  simLon : ℚ

/-- Embeds `_classify_neighborhood_by_coords`. -/
def classify_neighborhood_by_coords (latitude longitude : ℚ) : String :=
  if |latitude| > 40 ∨ |longitude| < 75 then "urban"
  else if |latitude| > 35 ∨ |longitude| < 80 then "suburban"
  else "rural"

/-- Embeds `_get_population_density`. -/
def get_population_density (neighborhood_type : String) : ℚ :=
  if neighborhood_type = "urban" then 8000
  else if neighborhood_type = "suburban" then 3000
  else 500

/-- Embeds `_get_nearby_risks`. -/
def get_nearby_risks (neighborhood_type : String) : List String :=
  (if neighborhood_type = "urban" then ["nightclub", "warehouse"] else []) ++
  (if neighborhood_type = "urban" ∨ neighborhood_type = "suburban" then ["school"]
   else [])

/-- Build the GeoData dict a provider path returns from validated
coordinates and a formatted address (the common tail of all three
`_geocode_with_*` functions), with the given provenance literal. -/
def geo_from_coords (latitude longitude : ℚ) (formatted_address source : String) :
    GeoData :=
  let neighborhood_type := classify_neighborhood_by_coords latitude longitude
  { latitude := latitude
    longitude := longitude
    neighborhood_type := neighborhood_type
    population_density := get_population_density neighborhood_type
    nearby_risks := get_nearby_risks neighborhood_type
    source := source
    formatted_address := formatted_address }

/-- tools/fallback/simulated_geo.py `simulate_geo`: random neighborhood and
coordinates, density and risk tags from the lookup tables, provenance
`"simulated"` and a synthetic placeholder address. -/
def simulate_geo (env : GeoEnv) : GeoData :=
  let n := ntypeStr env.simNeighborhood
  { latitude := env.simLat
    longitude := env.simLon
    neighborhood_type := n
    population_density := get_population_density n
    nearby_risks :=
      (match env.simNeighborhood with
       | NType.urban => ["nightclub", "warehouse", "school"]
       | NType.suburban => ["school"]
       | NType.rural => [])
    source := "simulated"
    formatted_address := "Simulated " ++ n ++ " location" }

/-- Embeds `get_geolocation_info` (lines 218-252): empty/whitespace-only address
short-circuits to simulation tagged `"simulated_empty_address"` keeping the
original address; otherwise Google, then Nominatim, then Photon, then
simulation tagged `"simulated_fallback"` keeping the original address. -/
def get_geolocation_info (env : GeoEnv) (address : String) : GeoData :=
  if address = "" ∨ address.trim = "" then
    { simulate_geo env with
        source := "simulated_empty_address", formatted_address := address }
  else
    match env.google address with
    | some g => geo_from_coords g.1 g.2.1 g.2.2 "google_maps"
    | none =>
    match env.nominatim address with
    | some g => geo_from_coords g.1 g.2.1 g.2.2 "nominatim"
    | none =>
    match env.photon address with
    | some g => geo_from_coords g.1 g.2.1 g.2.2 "photon"
    | none =>
      { simulate_geo env with
          source := "simulated_fallback", formatted_address := address }

/-- core/scoring_engine.py `compute_risk_dimensions` (lines 22-110; the
textual summaries built at lines 94-101 are dropped).  Python `int(round(x))`
is `pyRound`. -/
def compute_risk_dimensions (crime : CrimeData) (geo : GeoData) (prop : PropData)
    (property_type : String) (fenced gated : Bool)
    (hours notes : Option String) : RiskDims :=
  let property_type_lower := property_type.toLower
  let violent := crime.violent_crime_index
  let prop_crime := crime.property_crime_index
  let recent := crime.recent_incidents
  let crime_risk : ℚ := min (violent * 0.6 + prop_crime * 0.3 + recent * 3) 100
  let exposure := prop.base_exposure
  let exposure := exposure + (if !fenced then 10 else -5)
  let exposure := exposure + (if !gated then 10 else -5)
  let exposure :=
    if property_type_lower = "vacation home" then exposure + 15
    else if property_type_lower = "home" then exposure - 5
    else exposure
  let property_exposure_risk := min (max exposure 0) 100
  let neighborhood_type := geo.neighborhood_type
  let accessibility_risk : ℚ := if neighborhood_type = "urban" then 60 else 40
  let accessibility_risk := accessibility_risk + (if !fenced then 10 else -5)
  let accessibility_risk :=
    if property_type_lower = "vacation home" then accessibility_risk + 12
    else if property_type_lower = "home" then accessibility_risk - 3
    else accessibility_risk
  let accessibility_risk := min (max accessibility_risk 0) 100
  let population_density := geo.population_density
  let risks_lower := geo.nearby_risks.map String.toLower
  let neighborhood_risk : ℚ := population_density / 100
  let neighborhood_risk :=
    if risks_lower.contains "nightclub" then neighborhood_risk + 20
    else neighborhood_risk
  let neighborhood_risk :=
    if risks_lower.contains "warehouse" then neighborhood_risk + 15
    else neighborhood_risk
  let neighborhood_risk :=
    if risks_lower.contains "school" then neighborhood_risk + 5
    else neighborhood_risk
  let neighborhood_risk := min (max neighborhood_risk 0) 100
  let operational : ℚ := 20
  let operational :=
    if property_type_lower = "vacation home" then operational + 25 + 10
    else if property_type_lower = "home" then operational - 5
    else operational
  let operational := if optContains hours "24" then operational + 30 else operational
  let operational :=
    if optContainsLower notes "theft" then operational + 20 else operational
  let operational_risk := min (max operational 0) 100
  { crime_risk := pyRound crime_risk
    property_exposure_risk := pyRound property_exposure_risk
    accessibility_risk := pyRound accessibility_risk
    neighborhood_risk := pyRound neighborhood_risk
    operational_risk := pyRound operational_risk }

lemma le_pyRound {a : ℤ} {q : ℚ} (ha : (a : ℚ) ≤ q) : a ≤ pyRound q := by
  have hf : a ≤ ⌊q⌋ := Int.le_floor.mpr ha
  unfold pyRound
  split
  · split
    · exact hf
    · omega
  · have hr : ⌊q⌋ ≤ round q := by
      rw [round_eq]
      exact Int.floor_le_floor (by linarith)
    omega

lemma pyRound_le {q : ℚ} {b : ℤ} (hb : q ≤ (b : ℚ)) : pyRound q ≤ b := by
  unfold pyRound
  split
  · next htie =>
    have hq : q - (⌊q⌋ : ℚ) = 1 / 2 := by
      rw [Int.self_sub_floor]; exact htie
    have h2 : ⌊q⌋ < b := by
      have : (⌊q⌋ : ℚ) < (b : ℚ) := by linarith
      exact_mod_cast this
    split
    · omega
    · omega
  · next =>
    rw [round_eq]
    exact Int.floor_le_iff.mpr (by linarith)

lemma pyRound_bounds {a b : ℤ} {q : ℚ} (ha : (a : ℚ) ≤ q) (hb : q ≤ (b : ℚ)) :
    a ≤ pyRound q ∧ pyRound q ≤ b :=
  ⟨le_pyRound ha, pyRound_le hb⟩

lemma query_map_source {o : Option (ℚ × ℚ × ℚ)} {s : String} {r : CrimeData}
    (h : o.map (mkCityCrime s) = some r) : r.source = s := by
  rcases Option.map_eq_some'.mp h with ⟨t, -, rfl⟩
  rfl

lemma query_city_crime_api_source {env : CrimeEnv} {city : String} {la lo : ℚ}
    {r : CrimeData} (h : query_city_crime_api env city la lo = some r) :
    r.source ∈ (["chicago_api_realtime", "nypd_api", "la_api", "sf_api"] :
      List String) := by
  simp only [query_city_crime_api] at h
  split at h
  · have := query_map_source (by simpa [query_chicago_crime_api] using h)
    simp [this]
  · split at h
    · have := query_map_source (by simpa [query_nyc_crime_api] using h)
      simp [this]
    · split at h
      · have := query_map_source (by simpa [query_la_crime_api] using h)
        simp [this]
      · split at h
        · have := query_map_source (by simpa [query_sf_crime_api] using h)
          simp [this]
        · cases h

lemma get_crime_from_coordinates_source (sim : CrimeData) (la lo : ℚ) :
    (get_crime_from_coordinates sim la lo).source ∈
      (["coordinate_estimation_brooklyn_high_crime", "coordinate_estimation_brooklyn",
        "coordinate_estimation_manhattan", "coordinate_estimation_nyc",
        "coordinate_estimation_urban"] : List String) := by
  simp only [get_crime_from_coordinates]
  split_ifs <;> simp

lemma get_crime_data_body_source (env : CrimeEnv) (address : String)
    (latitude longitude : Option ℚ) (city : Option String) :
    (get_crime_data_body env address latitude longitude city).source ∈
      (["chicago_api_realtime", "nypd_api", "la_api", "sf_api",
        "coordinate_estimation_brooklyn_high_crime", "coordinate_estimation_brooklyn",
        "coordinate_estimation_manhattan", "coordinate_estimation_nyc",
        "coordinate_estimation_urban", "coordinate_based", "simulated"] :
        List String) := by
  simp only [get_crime_data_body]
  split
  · next r hr =>
    split at hr
    · have := query_city_crime_api_source hr
      simp at this ⊢
      tauto
    · cases hr
  · split
    · next r hr =>
      split at hr
      · split at hr
        · split at hr
          · have := query_city_crime_api_source hr
            simp at this ⊢
            tauto
          · cases hr
        · cases hr
      · cases hr
    · split
      · have := get_crime_from_coordinates_source (simulate_crime env)
        rename_i la lo _ _
        have h2 := get_crime_from_coordinates_source (simulate_crime env) la lo
        simp at h2 ⊢
        tauto
      · split
        · split
          · next r hr =>
            split at hr
            · split at hr
              · have := query_city_crime_api_source hr
                simp at this ⊢
                tauto
              · cases hr
            · cases hr
          · simp
        · simp

/-- A concrete resolver environment in which every provider fails and the
simulation draws are fixed; `unexpected` is off. -/
def defaultCrimeEnv : CrimeEnv :=
  { chicago := fun _ _ => none
    nyc := fun _ _ => none
    la := fun _ _ => none
    sf := fun _ _ => none
    geopy := fun _ => none
    simViolent := 50
    simProperty := 40
    simRecent := 5
    unexpected := false }

/-- A concrete geolocation environment in which every provider fails. -/
def defaultGeoEnv : GeoEnv :=
  { google := fun _ => none
    nominatim := fun _ => none
    photon := fun _ => none
    simNeighborhood := NType.urban
    simLat := 40.5
    simLon := -73.9 }

/-- Claim C1 (code bug evidence): with a real crime source and a simulated
geo source `compute_overall_score` returns confidence 0.5, not the 0.7 the
claim prescribes for exactly one real source, while the mirror-image input
does return 0.7 — the 0.7 branch of aggregation.py lines 30-35 only covers
crime-simulated-and-geo-real, and the `else` branch commented
`# Both simulated` also absorbs crime-real-and-geo-simulated. -/
theorem confidence_not_symmetric :
    (compute_overall_score ⟨0, 0, 0, 0, 0⟩ (some "chicago_api_realtime")
      (some "simulated")).2 = 0.5 ∧
    (compute_overall_score ⟨0, 0, 0, 0, 0⟩ (some "simulated")
      (some "chicago_api_realtime")).2 = 0.7 ∧
    (0.5 : ℚ) ≠ 0.7 := by
  have h1 : ¬("chicago_api_realtime" = "simulated") := by decide
  refine ⟨?_, ?_, by norm_num⟩ <;> norm_num [compute_overall_score, h1]

/-- Claim C2 (counterexample): a crime source tagged `"simulated"` together
with a geo source tagged `"simulated_fallback"` — both simulated-family tags,
so the claim prescribes confidence 0.5 — yields confidence 0.7, because the
code compares only against the literal `"simulated"`. -/
theorem confidence_family_tags_counterexample :
    (compute_overall_score ⟨0, 0, 0, 0, 0⟩ (some "simulated")
      (some "simulated_fallback")).2 = 0.7 ∧ (0.7 : ℚ) ≠ 0.5 := by
  have h1 : ¬("simulated_fallback" = "simulated") := by decide
  constructor
  · norm_num [compute_overall_score, h1]
  · norm_num

/-- Claim C2 (amended): the confidence computed by `compute_overall_score`
depends only on whether each of the two provenance strings equals the
literal `"simulated"`; the other simulated-family tags
(`"simulated_fallback"`, `"simulated_empty_address"`, `"simulated_error"`)
compare unequal to `"simulated"` and therefore count as non-simulated. -/
theorem confidence_depends_only_on_literal_simulated
    (d d' : RiskDims) (cs gs cs' gs' : Option String)
    (hc : cs.getD "simulated" = "simulated" ↔ cs'.getD "simulated" = "simulated")
    (hg : gs.getD "simulated" = "simulated" ↔ gs'.getD "simulated" = "simulated") :
    (compute_overall_score d cs gs).2 = (compute_overall_score d' cs' gs').2 := by
  simp only [compute_overall_score]
  by_cases h1 : cs.getD "simulated" = "simulated" <;>
    by_cases h2 : gs.getD "simulated" = "simulated"
  · have h1' := hc.mp h1
    have h2' := hg.mp h2
    simp [h1, h2, h1', h2']
  · have h1' := hc.mp h1
    have h2' : ¬gs'.getD "simulated" = "simulated" := fun k => h2 (hg.mpr k)
    simp [h1, h2, h1', h2']
  · have h1' : ¬cs'.getD "simulated" = "simulated" := fun k => h1 (hc.mpr k)
    have h2' := hg.mp h2
    simp [h1, h2, h1', h2']
  · have h1' : ¬cs'.getD "simulated" = "simulated" := fun k => h1 (hc.mpr k)
    have h2' : ¬gs'.getD "simulated" = "simulated" := fun k => h2 (hg.mpr k)
    simp [h1, h2, h1', h2']

/-- Witness for the amended C2: the family tags `"simulated_error"` and
`"simulated_fallback"` produce the same confidence as two real providers. -/
theorem confidence_depends_only_on_literal_simulated_witness :
    (compute_overall_score ⟨0, 0, 0, 0, 0⟩ (some "simulated_error")
      (some "simulated_fallback")).2 =
    (compute_overall_score ⟨0, 0, 0, 0, 0⟩ (some "nypd_api")
      (some "nominatim")).2 :=
  confidence_depends_only_on_literal_simulated ⟨0, 0, 0, 0, 0⟩ ⟨0, 0, 0, 0, 0⟩
    (some "simulated_error") (some "simulated_fallback") (some "nypd_api")
    (some "nominatim") (by simp only [Option.getD]; decide)
    (by simp only [Option.getD]; decide)

/-- Claim C3 (counterexample): on the claimed inputs the weighted sum is
50·0.35 + 40·0.25 + 30·0.15 + 20·0.15 + 10·0.10 = 36.0, so the overall
score is 36.0 and not the 36.5 the claim states. -/
theorem overall_score_example_not_36_5 :
    (compute_overall_score ⟨50, 40, 30, 20, 10⟩ (some "chicago_api_realtime")
      (some "nominatim")).1 = 36 ∧ (36 : ℚ) ≠ 36.5 := by
  constructor
  · norm_num [compute_overall_score, pyRound2, pyRound]
  · norm_num

/-- Claim C3 (amended): for the dimension inputs
{crime 50, exposure 40, accessibility 30, neighborhood 20, operational 10}
and any two non-simulated sources, `compute_overall_score` returns overall
score 36.0 and confidence 1.0. -/
theorem overall_score_example (cs gs : String)
    (hc : cs ≠ "simulated") (hg : gs ≠ "simulated") :
    compute_overall_score ⟨50, 40, 30, 20, 10⟩ (some cs) (some gs) = (36, 1) := by
  simp only [compute_overall_score, Option.getD]
  rw [if_pos ⟨hc, hg⟩]
  norm_num [pyRound2, pyRound]

/-- Witness for the amended C3 at two concrete real providers. -/
theorem overall_score_example_witness :
    compute_overall_score ⟨50, 40, 30, 20, 10⟩ (some "chicago_api_realtime")
      (some "nominatim") = (36, 1) :=
  overall_score_example "chicago_api_realtime" "nominatim" (by decide) (by decide)

/-- Claim C8: `generate_recommendations` always returns a non-empty list
whose size is fixed by exclusive, exhaustive, strictly-greater-than tiers —
5 advanced items above 75, 3 enhanced items on (60, 75], 3 standard items on
(40, 60], and the 1-item baseline advisory otherwise; in particular score
75.0 gets the 3-item list, not the 5-item advanced list, and 75.01 gets the
5-item advanced list. -/
theorem recommendation_tiers :
    (∀ score : ℚ, generate_recommendations score ≠ [] ∧
      (generate_recommendations score).length =
        (if 75 < score then 5 else if 60 < score then 3
         else if 40 < score then 3 else 1)) ∧
    (generate_recommendations 75).length = 3 ∧
    (generate_recommendations 75.01).length = 5 := by
  refine ⟨fun score => ?_, ?_, ?_⟩
  · unfold generate_recommendations
    split_ifs <;> simp_all
  · norm_num [generate_recommendations]
  · norm_num [generate_recommendations]

/-- Claim C6: for an empty or whitespace-only address the Geolocation
Resolver returns (never raises) a simulated result tagged
`"simulated_empty_address"` whose `formatted_address` is the original input
address, not the synthetic placeholder text. -/
theorem empty_address_simulated (env : GeoEnv) (address : String)
    (h : address = "" ∨ address.trim = "") :
    (get_geolocation_info env address).source = "simulated_empty_address" ∧
    (get_geolocation_info env address).formatted_address = address := by
  unfold get_geolocation_info
  rw [if_pos h]
  exact ⟨rfl, rfl⟩

/-- Witness for C6 at the empty address. -/
theorem empty_address_simulated_witness :
    (get_geolocation_info defaultGeoEnv "").source = "simulated_empty_address" ∧
    (get_geolocation_info defaultGeoEnv "").formatted_address = "" :=
  empty_address_simulated defaultGeoEnv "" (Or.inl rfl)

/-- Claim C7: the crime_risk dimension equals
`round(min(violent·0.6 + property·0.3 + recent·3, 100))`, and for
non-negative inputs it is never below 0 (no lower clamp is needed).  The
witness instantiates violent=50, property=40, recent=10, where the raw value
is 72.0 and the returned integer 72. -/
theorem crime_risk_formula (crime : CrimeData) (geo : GeoData) (prop : PropData)
    (property_type : String) (fenced gated : Bool) (hours notes : Option String)
    (hv : 0 ≤ crime.violent_crime_index) (hp : 0 ≤ crime.property_crime_index)
    (hr : 0 ≤ crime.recent_incidents) :
    (compute_risk_dimensions crime geo prop property_type fenced gated
        hours notes).crime_risk =
      pyRound (min (crime.violent_crime_index * 0.6 +
        crime.property_crime_index * 0.3 + crime.recent_incidents * 3) 100) ∧
    0 ≤ (compute_risk_dimensions crime geo prop property_type fenced gated
        hours notes).crime_risk := by
  constructor
  · rfl
  · show (0 : ℤ) ≤ pyRound (min (crime.violent_crime_index * 0.6 +
      crime.property_crime_index * 0.3 + crime.recent_incidents * 3) 100)
    refine le_pyRound ?_
    have h1 : (0 : ℚ) ≤ crime.violent_crime_index * 0.6 :=
      mul_nonneg hv (by norm_num)
    have h2 : (0 : ℚ) ≤ crime.property_crime_index * 0.3 :=
      mul_nonneg hp (by norm_num)
    have h3 : (0 : ℚ) ≤ crime.recent_incidents * 3 :=
      mul_nonneg hr (by norm_num)
    push_cast
    exact le_min (by linarith) (by norm_num)

/-- Witness for C7: violent=50, property=40, recent=10 give crime_risk 72. -/
theorem crime_risk_formula_witness :
    (compute_risk_dimensions ⟨50, 40, 10, "chicago_api_realtime"⟩
      ⟨40.7, -73.9, "urban", 8000, ["nightclub", "warehouse", "school"],
        "nominatim", "addr"⟩
      ⟨30⟩ "business" false false none none).crime_risk = 72 := by
  have h := crime_risk_formula ⟨50, 40, 10, "chicago_api_realtime"⟩
    ⟨40.7, -73.9, "urban", 8000, ["nightclub", "warehouse", "school"],
      "nominatim", "addr"⟩
    ⟨30⟩ "business" false false none none (by norm_num) (by norm_num) (by norm_num)
  rw [h.1]
  norm_num [pyRound, min_def, Int.fract]

lemma pyRound_in_range {q : ℚ} (h0 : 0 ≤ q) (h1 : q ≤ 100) :
    0 ≤ pyRound q ∧ pyRound q ≤ 100 :=
  ⟨le_pyRound (by exact_mod_cast h0), pyRound_le (by exact_mod_cast h1)⟩

lemma clamp_in_range (x : ℚ) : 0 ≤ min (max x 0) 100 ∧ min (max x 0) 100 ≤ 100 :=
  ⟨le_min (le_max_right x 0) (by norm_num), min_le_right _ _⟩

/-- Claim C4: for valid inputs (crime indices in [0,100], recent incidents
in [0,30], non-negative population density, arbitrary property type, flags,
hours and notes) every dimension score lies in [0,100], the overall score
lies in [0,100], and the confidence is exactly one of 0.5, 0.7, 1.0. -/
theorem scores_and_confidence_in_range (crime : CrimeData) (geo : GeoData)
    (prop : PropData) (property_type : String) (fenced gated : Bool)
    (hours notes : Option String) (cs gs : Option String)
    (hv0 : 0 ≤ crime.violent_crime_index) (_hv1 : crime.violent_crime_index ≤ 100)
    (hp0 : 0 ≤ crime.property_crime_index) (_hp1 : crime.property_crime_index ≤ 100)
    (hr0 : 0 ≤ crime.recent_incidents) (_hr1 : crime.recent_incidents ≤ 30)
    (_hd0 : 0 ≤ geo.population_density) :
    let d := compute_risk_dimensions crime geo prop property_type fenced gated
      hours notes
    (0 ≤ d.crime_risk ∧ d.crime_risk ≤ 100) ∧
    (0 ≤ d.property_exposure_risk ∧ d.property_exposure_risk ≤ 100) ∧
    (0 ≤ d.accessibility_risk ∧ d.accessibility_risk ≤ 100) ∧
    (0 ≤ d.neighborhood_risk ∧ d.neighborhood_risk ≤ 100) ∧
    (0 ≤ d.operational_risk ∧ d.operational_risk ≤ 100) ∧
    (0 ≤ (compute_overall_score d cs gs).1 ∧
      (compute_overall_score d cs gs).1 ≤ 100) ∧
    ((compute_overall_score d cs gs).2 = 0.5 ∨
      (compute_overall_score d cs gs).2 = 0.7 ∨
      (compute_overall_score d cs gs).2 = 1.0) := by
  intro d
  have hcrime : (0 : ℚ) ≤ min (crime.violent_crime_index * 0.6 +
      crime.property_crime_index * 0.3 + crime.recent_incidents * 3) 100 ∧
      min (crime.violent_crime_index * 0.6 + crime.property_crime_index * 0.3 +
        crime.recent_incidents * 3) 100 ≤ 100 := by
    constructor
    · have h1 : (0 : ℚ) ≤ crime.violent_crime_index * 0.6 :=
        mul_nonneg hv0 (by norm_num)
      have h2 : (0 : ℚ) ≤ crime.property_crime_index * 0.3 :=
        mul_nonneg hp0 (by norm_num)
      have h3 : (0 : ℚ) ≤ crime.recent_incidents * 3 := mul_nonneg hr0 (by norm_num)
      exact le_min (by linarith) (by norm_num)
    · exact min_le_right _ _
  refine ⟨pyRound_in_range hcrime.1 hcrime.2,
    pyRound_in_range (clamp_in_range _).1 (clamp_in_range _).2,
    pyRound_in_range (clamp_in_range _).1 (clamp_in_range _).2,
    pyRound_in_range (clamp_in_range _).1 (clamp_in_range _).2,
    pyRound_in_range (clamp_in_range _).1 (clamp_in_range _).2,
    ⟨le_max_left 0 _, max_le (by norm_num) (min_le_left _ _)⟩, ?_⟩
  simp only [compute_overall_score]
  split_ifs <;> norm_num

/-- Witness for C4 at a fully concrete valid input. -/
theorem scores_and_confidence_in_range_witness :
    let d := compute_risk_dimensions ⟨50, 40, 10, "chicago_api_realtime"⟩
      ⟨40.7, -73.9, "urban", 8000, ["nightclub", "warehouse", "school"],
        "nominatim", "addr"⟩
      ⟨45⟩ "vacation home" true false (some "24/7") (some "recent theft nearby")
    (0 ≤ d.crime_risk ∧ d.crime_risk ≤ 100) ∧
    (0 ≤ d.property_exposure_risk ∧ d.property_exposure_risk ≤ 100) ∧
    (0 ≤ d.accessibility_risk ∧ d.accessibility_risk ≤ 100) ∧
    (0 ≤ d.neighborhood_risk ∧ d.neighborhood_risk ≤ 100) ∧
    (0 ≤ d.operational_risk ∧ d.operational_risk ≤ 100) ∧
    (0 ≤ (compute_overall_score d (some "chicago_api_realtime")
        (some "nominatim")).1 ∧
      (compute_overall_score d (some "chicago_api_realtime")
        (some "nominatim")).1 ≤ 100) ∧
    ((compute_overall_score d (some "chicago_api_realtime")
        (some "nominatim")).2 = 0.5 ∨
      (compute_overall_score d (some "chicago_api_realtime")
        (some "nominatim")).2 = 0.7 ∨
      (compute_overall_score d (some "chicago_api_realtime")
        (some "nominatim")).2 = 1.0) :=
  scores_and_confidence_in_range ⟨50, 40, 10, "chicago_api_realtime"⟩
    ⟨40.7, -73.9, "urban", 8000, ["nightclub", "warehouse", "school"],
      "nominatim", "addr"⟩
    ⟨45⟩ "vacation home" true false (some "24/7") (some "recent theft nearby")
    (some "chicago_api_realtime") (some "nominatim")
    (by norm_num) (by norm_num) (by norm_num) (by norm_num) (by norm_num)
    (by norm_num) (by norm_num)

/-- Claim C5: `get_crime_data` always returns a crime-data value for every
address, optional coordinates and city hint, under every provider behaviour
(each oracle `none` is an absorbed timeout / non-2xx / malformed payload /
empty result), and its provenance is `"simulated_error"` exactly when an
unexpected internal error was raised inside the body and absorbed by the
outermost handler. -/
theorem crime_data_never_raises (env : CrimeEnv) (address : String)
    (latitude longitude : Option ℚ) (city : Option String) :
    (get_crime_data env address latitude longitude city).source =
      "simulated_error" ↔ env.unexpected = true := by
  unfold get_crime_data
  split_ifs with h
  · simp [h]
  · have hmem := get_crime_data_body_source env address latitude longitude city
    constructor
    · intro hsrc
      rw [hsrc] at hmem
      simp at hmem
    · intro htrue
      exact absurd htrue h

lemma get_crime_data_body_coords_source (env : CrimeEnv) (address : String)
    (la lo : ℚ) (city : Option String) :
    (get_crime_data_body env address (some la) (some lo) city).source ∈
      (["chicago_api_realtime", "nypd_api", "la_api", "sf_api",
        "coordinate_estimation_brooklyn_high_crime", "coordinate_estimation_brooklyn",
        "coordinate_estimation_manhattan", "coordinate_estimation_nyc",
        "coordinate_estimation_urban"] : List String) := by
  simp only [get_crime_data_body]
  split
  · next r hr =>
    split at hr
    · have := query_city_crime_api_source hr
      simp at this ⊢
      tauto
    · cases hr
  · split
    · next r hr =>
      split at hr
      · split at hr
        · split at hr
          · have := query_city_crime_api_source hr
            simp at this ⊢
            tauto
          · cases hr
        · cases hr
      · cases hr
    · have := get_crime_from_coordinates_source (simulate_crime env) la lo
      simp at this ⊢
      tauto

/-- Claim C9: with a zero latitude or longitude the city-statistics branches
of `get_crime_data` are skipped (their guards test Python truthiness, and
0.0 is falsy) even when a city hint or a detectable city is available, while
the coordinate-estimation branch (which only tests for `None`) still runs:
the result is exactly `_get_crime_from_coordinates`, for any provider
environment. -/
theorem zero_coordinates_skip_city_api (env : CrimeEnv) (address : String)
    (la lo : ℚ) (c : String) (h : env.unexpected = false) :
    get_crime_data env address (some 0) (some lo) (some c) =
      get_crime_from_coordinates (simulate_crime env) 0 lo ∧
    get_crime_data env address (some la) (some 0) (some c) =
      get_crime_from_coordinates (simulate_crime env) la 0 ∧
    get_crime_data env address (some 0) (some lo) none =
      get_crime_from_coordinates (simulate_crime env) 0 lo := by
  have hz : pyTruthyCoord (some 0) = false := by
    simp [pyTruthyCoord]
  refine ⟨?_, ?_, ?_⟩ <;>
    · unfold get_crime_data
      rw [h]
      simp only [Bool.false_eq_true, if_false, get_crime_data_body, hz]
      rcases hdc : detect_city_from_address address with _ | dc <;>
        split_ifs <;> first
          | (exfalso; tauto)
          | simp [hdc]

/-- Witness for C9: with a truthy Chicago hint, a working environment and a
zero latitude, the result is exactly the coordinate estimation. -/
theorem zero_coordinates_skip_city_api_witness :
    get_crime_data defaultCrimeEnv "1 Chicago Loop, Chicago" (some 0) (some 5)
      (some "chicago") =
      get_crime_from_coordinates (simulate_crime defaultCrimeEnv) 0 5 :=
  (zero_coordinates_skip_city_api defaultCrimeEnv "1 Chicago Loop, Chicago" 41 5
    "chicago" rfl).1

/-- Claim C10: `_get_crime_from_coordinates` always answers from one of its
bounding-box branches with provenance starting with
`"coordinate_estimation_"` (the generic urban catch-all guards the last
branch with a constant `True`), its trailing `simulate_crime()` fallback is
unreachable (the result never depends on the simulation draw), and
`get_crime_data` with two non-None coordinates and no unexpected error never
returns provenance `"simulated"`. -/
theorem coordinate_estimation_always (sim sim' : CrimeData) (env : CrimeEnv)
    (address : String) (la lo : ℚ) (city : Option String)
    (h : env.unexpected = false) :
    strStartsWith (get_crime_from_coordinates sim la lo).source
      "coordinate_estimation_" = true ∧
    get_crime_from_coordinates sim la lo = get_crime_from_coordinates sim' la lo ∧
    (get_crime_data env address (some la) (some lo) city).source ≠ "simulated" := by
  refine ⟨?_, ?_, ?_⟩
  · have hmem := get_crime_from_coordinates_source sim la lo
    simp only [List.mem_cons, List.not_mem_nil, or_false] at hmem
    rcases hmem with h1 | h1 | h1 | h1 | h1 <;> rw [h1] <;> decide
  · simp [get_crime_from_coordinates]
  · have hmem := get_crime_data_body_coords_source env address la lo city
    unfold get_crime_data
    rw [h]
    simp only [Bool.false_eq_true, if_false]
    intro hsrc
    rw [hsrc] at hmem
    simp at hmem

/-- Witness for C10 at concrete coordinates in the generic urban catch-all. -/
theorem coordinate_estimation_always_witness :
    strStartsWith (get_crime_from_coordinates
        (simulate_crime defaultCrimeEnv) 50 5).source
      "coordinate_estimation_" = true ∧
    get_crime_from_coordinates (simulate_crime defaultCrimeEnv) 50 5 =
      get_crime_from_coordinates ⟨0, 0, 0, "unused"⟩ 50 5 ∧
    (get_crime_data defaultCrimeEnv "10 Downing St" (some 50) (some 5)
      none).source ≠ "simulated" :=
  coordinate_estimation_always (simulate_crime defaultCrimeEnv) ⟨0, 0, 0, "unused"⟩
    defaultCrimeEnv "10 Downing St" 50 5 none rfl
